import Mathlib

/-!
Shallow embedding of the svelte-view-engine core (src/Page.js, src/engine.js):
the Page lifecycle state machine (init / build / render / heartbeat / watcher
change handler) and the registry-level render of engine.js.

JavaScript values that flow through the artifact JSON, the render locals and
the template payload are modelled by an explicit `JsVal` type so that missing
fields (`undefined`), property access on `undefined`/`null` (TypeError) and
JSON stringification behave as in the source.  Side effects (scheduler calls,
artifact deletion, live-reload notifications, the ambient payload slot) are
returned as an explicit effect list; asynchronous suspension points that the
claims depend on (the 100 ms debounce sleep) are modelled by a parameter
describing what was delivered during the suspension.
-/

namespace SVE

/-- A JavaScript value as used by the engine: JSON data plus `undefined` and
opaque function values (needed for the engine-internal `__headOnce` local). -/
inductive JsVal where
  | undefined : JsVal
  | null : JsVal
  | bool (b : Bool) : JsVal
  | num (n : Int) : JsVal
  | str (s : String) : JsVal
  | fn (tag : String) : JsVal
  | obj (fields : List (String × JsVal)) : JsVal
  | arr (elems : List JsVal) : JsVal

/-- Errors surfaced by the embedded code. -/
inductive JsErr where
  | typeError (msg : String) : JsErr
  | parseError : JsErr
  | buildError : JsErr
deriving DecidableEq

/-- First binding of a key in an object field list (JS objects hold at most
one binding per key; our constructions preserve that). -/
def lookupField : List (String × JsVal) → String → Option JsVal
  | [], _ => none
  | (k, v) :: rest, key => if k = key then some v else lookupField rest key

/-- Property access `v[key]`: throws TypeError on `undefined`/`null`,
returns `undefined` for a missing property, models the data properties the
source reads (plus `length` on strings). -/
def JsVal.get : JsVal → String → Except JsErr JsVal
  | .undefined, key => .error (.typeError ("cannot read property " ++ key ++ " of undefined"))
  | .null, key => .error (.typeError ("cannot read property " ++ key ++ " of null"))
  | .str s, key => .ok (if key = "length" then .num s.length else .undefined)
  | .obj fields, key => .ok ((lookupField fields key).getD .undefined)
  | _, _ => .ok .undefined

/-- JavaScript truthiness. -/
def truthy : JsVal → Bool
  | .undefined => false
  | .null => false
  | .bool b => b
  | .num n => n != 0
  | .str s => s ≠ ""
  | .fn _ => true
  | .obj _ => true
  | .arr _ => true

/-- String escaping of `JSON.stringify` (quote and backslash; the source data
contains no control characters). -/
def jsonEscapeChar (c : Char) : String :=
  if c.toNat = 92 ∨ c.toNat = 34 then "\\" ++ String.singleton c
  else String.singleton c

def jsonEscape (s : String) : String :=
  String.join (s.toList.map jsonEscapeChar)

def jsonQuote (s : String) : String :=
  "\"" ++ jsonEscape s ++ "\""

mutual

/-- The embedding of `JSON.stringify`: functions and `undefined` are dropped from objects and
become `null` in arrays. -/
def jsStringify : JsVal → String
  | .undefined => "undefined"
  | .null => "null"
  | .bool b => if b then "true" else "false"
  | .num n => toString n
  | .str s => jsonQuote s
  | .fn _ => "undefined"
  | .obj fields => "\x7b" ++ String.intercalate "," (jsStringifyFields fields) ++ "\x7d"
  | .arr elems => "[" ++ String.intercalate "," (jsStringifyElems elems) ++ "]"

def jsStringifyFields : List (String × JsVal) → List String
  | [] => []
  | (k, v) :: rest =>
    match v with
    | .undefined => jsStringifyFields rest
    | .fn _ => jsStringifyFields rest
    | _ => (jsonQuote k ++ ":" ++ jsStringify v) :: jsStringifyFields rest

def jsStringifyElems : List JsVal → List String
  | [] => []
  | v :: rest =>
    match v with
    | .undefined => "null" :: jsStringifyElems rest
    | .fn _ => "null" :: jsStringifyElems rest
    | _ => jsStringify v :: jsStringifyElems rest

end

/-- Set a key in an object field list as JS assignment/spread does: an
existing binding keeps its position and gets the new value, a new key is
appended. -/
def setField : List (String × JsVal) → String → JsVal → List (String × JsVal)
  | [], key, v => [(key, v)]
  | (k, w) :: rest, key, v =>
    if k = key then (k, v) :: rest else (k, w) :: setField rest key v

/-- Object spread `\x7b ...base-literal, ...add \x7d`: the fields of `add`
are written over `base` one by one, later bindings winning. -/
def spreadFields (base add : List (String × JsVal)) : List (String × JsVal) :=
  add.foldl (fun acc kv => setField acc kv.1 kv.2) base

/-- The configuration fields Page.js reads (src/engine.js `options`). -/
structure Config where
  env : String
  watch : Bool
  liveReload : Bool
  payloadFormat : String
  prerender : Bool
deriving DecidableEq

/-- The immutable per-page context set up by the Page constructor
(src/Page.js lines 22-67): identity, derived asset paths, configuration,
the engine live-reload handle (its port when present) and whether the
process runs inside Electron (module-level `isElectron`). -/
structure PageCtx where
  path : String
  name : String
  jsPath : String
  cssPath : String
  config : Config
  liveReloadPort : Option Nat
  isElectron : Bool
deriving DecidableEq

/-- The mutable fields of a Page.  `idleTimer` holds the identifier of the
pending single-shot idle timer, `ssrModule` the instantiated SSR module
(keyed by its component source), `watcher` the watch-file list handed to
chokidar. -/
structure PageState where
  ready : Bool
  active : Bool
  idleTimer : Option Nat
  serverComponent : JsVal
  clientComponent : JsVal
  hashes : JsVal
  ssrModule : Option String
  watcher : Option JsVal

/-- A freshly constructed Page: `ready = false`, `active = false`
(src/Page.js lines 46, 54), everything else unset (`undefined`). -/
def freshPage : PageState :=
  { ready := false
    active := false
    idleTimer := none
    serverComponent := .undefined
    clientComponent := .undefined
    hashes := .undefined
    ssrModule := none
    watcher := none }

/-- The externally visible side effects of the embedded operations. -/
inductive Effect where
  | schedulerBuild (priority : Bool) : Effect
  | scheduleBuild (priority : Bool) : Effect
  | deleteArtifact : Effect
  | liveReloadSend (path : String) : Effect
  | electronReload (path : String) : Effect
  | sleepMs (ms : Nat) : Effect
  | runBuildScript : Effect
  | payloadSet (locals : JsVal) : Effect
  | prerenderCall (locals : JsVal) : Effect

/-- The artifact file on disk as `init` sees it: absent, unparsable, or a
parsed JSON value. -/
inductive DiskFile where
  | absent : DiskFile
  | corrupt : DiskFile
  | json (v : JsVal) : DiskFile

/-- Result of one state-machine step: the resulting page state, the side
effects emitted (in order), and the error propagated to the caller when the
step threw. -/
structure StepOut where
  state : PageState
  effects : List Effect
  error : Option JsErr

/-- src/Page.js line 19: the idle window in milliseconds
(`let idleTimeout = 1000 * 15`). -/
def idleTimeout : Nat := 1000 * 15

/-- src/Page.js lines 170-181: `heartbeat()` at time `now` (ms) sets
`active = true`, clears any pending idle timer (the cleared timer can no
longer fire, see `idleTimerFire`) and schedules a fresh single-shot timer
expiring `idleTimeout` ms later; the pending timer is identified by its
expiry instant. -/
def heartbeat (st : PageState) (now : Nat) : PageState :=
  { st with active := true, idleTimer := some (now + idleTimeout) }

/-- Expiry of the idle timer scheduled for instant `t` (the callback
installed by `heartbeat`): it runs only if it is still the pending timer — a
timer that was cleared or replaced by a later heartbeat never fires — and
then sets `active = false` and clears the handle
(src/Page.js lines 177-180). -/
def idleTimerFire (st : PageState) (t : Nat) : PageState :=
  if st.idleTimer = some t then { st with active := false, idleTimer := none } else st

/-- src/Page.js lines 135-144: the watcher change handler.  It sets
`ready = false`; when not in Electron and the page is inactive it awaits
`sleep(100)` — a suspension point during which the event loop may deliver a
heartbeat for this page, modelled by `hbDuringSleep` (the arrival time of
that heartbeat) — and then calls `scheduler.scheduleBuild(this, this.active)`
with the value `this.active` has at that moment. -/
def onChange (ctx : PageCtx) (st : PageState) (hbDuringSleep : Option Nat) :
    PageState × List Effect :=
  let st1 := { st with ready := false }
  if !ctx.isElectron && !st1.active then
    let st2 := match hbDuringSleep with
      | some t => heartbeat st1 t
      | none => st1
    (st2, [.sleepMs 100, .scheduleBuild st2.active])
  else
    (st1, [.scheduleBuild st1.active])

/-- Modelled from the spec: `src/utils/instantiateSsrModule.js` is not part
of the sources; per the spec it loads the server component code into an
executable SSR module keyed by the page path.  The module is identified by
its source; loading anything that is not a code string fails. -/
def instantiateSsrModule (source : JsVal) (_path : String) : Except JsErr String :=
  match source with
  | .str s => .ok s
  | _ => .error (.typeError "instantiateSsrModule: component source is not a string")

/-- The `head` and `html` pair returned by the SSR module render entry. -/
structure SsrOutput where
  head : String
  html : String
deriving DecidableEq

/-- Modelled from the spec: the render entry of the instantiated SSR module
(an external collaborator) — a deterministic function of the component
source and the render context returning `\x7bhead, html\x7d`. -/
def ssrRender (source : String) (locals : JsVal) : SsrOutput :=
  { head := "<head " ++ source ++ ">"
    html := "<ssr " ++ source ++ " " ++ jsStringify locals ++ ">" }

/-- The watch branch of `init` (src/Page.js lines 128-165): close any prior
watcher, attach a new one to `this.clientComponent.watchFiles` (a property
access that throws, uncaught, when `clientComponent` is `undefined`/`null`),
and when live reload is configured notify clients (or reload matching
Electron windows).  Then line 167: `this.ready = true`. -/
def initWatch (ctx : PageCtx) (st : PageState) : StepOut :=
  if ctx.config.watch then
    match st.clientComponent.get "watchFiles" with
    | .error e => { state := st, effects := [], error := some e }
    | .ok wf =>
      let st2 := { st with watcher := some wf }
      let reloadEffects :=
        if ctx.config.liveReload then
          if ctx.isElectron then [Effect.electronReload ctx.path]
          else [Effect.liveReloadSend ctx.path]
        else []
      { state := { st2 with ready := true }, effects := reloadEffects, error := none }
  else
    { state := { st with ready := true }, effects := [], error := none }

/-- src/Page.js lines 103-168: `init(priority = false)`.  When the artifact
file is absent it only delegates `scheduler.build(this, priority)`.
Otherwise it reads the artifact JSON and, inside a try block, destructures
`\x7bclient, server, hashes\x7d`, stores them on the page (`hashes || \x7b\x7d`),
and when `server` is truthy instantiates the SSR module from
`this.serverComponent.component`; any throw in the try block deletes the
artifact file and re-throws.  On success the watch branch runs and
`ready` is set to `true`. -/
def init (ctx : PageCtx) (disk : DiskFile) (st : PageState) (priority : Bool) : StepOut :=
  match disk with
  | .absent => { state := st, effects := [.schedulerBuild priority], error := none }
  | .corrupt => { state := st, effects := [.deleteArtifact], error := some .parseError }
  | .json v =>
    match v.get "client", v.get "server", v.get "hashes" with
    | .ok client, .ok server, .ok hashes =>
      let st1 := { st with
        serverComponent := server
        clientComponent := client
        hashes := if truthy hashes then hashes else .obj [] }
      let afterSsr : Except JsErr PageState :=
        if truthy st1.serverComponent then
          match st1.serverComponent.get "component" with
          | .ok comp =>
            match instantiateSsrModule comp ctx.path with
            | .ok m => .ok { st1 with ssrModule := some m }
            | .error e => .error e
          | .error e => .error e
        else .ok st1
      match afterSsr with
      | .error e => { state := st1, effects := [.deleteArtifact], error := some e }
      | .ok st2 => initWatch ctx st2
    | _, _, _ =>
      -- destructuring the parsed JSON threw (it was `null`); caught by the
      -- same catch block: delete the artifact and re-throw
      { state := st, effects := [.deleteArtifact], error := some (.typeError "cannot destructure") }

/-- src/Page.js lines 92-101: `build()` runs the external build script and
then `init()`.  `buildRun` is the outcome of the script: an error when the
subprocess fails, otherwise the artifact it wrote to `buildFile`. -/
def build (ctx : PageCtx) (buildRun : Except JsErr DiskFile) (st : PageState) : StepOut :=
  match buildRun with
  | .error e => { state := st, effects := [.runBuildScript], error := some e }
  | .ok disk =>
    let o := init ctx disk st false
    { state := o.state, effects := Effect.runBuildScript :: o.effects, error := o.error }

/-- The engine-internal `__headOnce` one-shot function installed in every
render context (src/Page.js lines 192-206). -/
def headOnceVal : JsVal := .fn "__headOnce"

/-- src/Page.js lines 194-206: `locals = \x7b __headOnce() \x7b...\x7d, ...locals \x7d`
— the caller locals are spread over the object literal that already holds
the engine-internal `__headOnce`, so later (caller) bindings win.  (Every
call site passes an object; spreading a non-object contributes no fields.) -/
def mergeRenderLocals (locals : JsVal) : JsVal :=
  match locals with
  | .obj fs => .obj (spreadFields [("__headOnce", headOnceVal)] fs)
  | _ => .obj [("__headOnce", headOnceVal)]

/-- The record handed to the Template collaborator (src/Page.js lines
287-298); template assembly itself is an external collaborator, so the
rendered document is identified with this record. -/
structure Document where
  head : String
  html : String
  css : JsVal
  js : JsVal
  jsPath : String
  cssPath : String
  jsHash : JsVal
  cssHash : JsVal
  name : String
  props : String

/-- What `render` returns: the bare HTML fragment in email mode, otherwise
the assembled document. -/
inductive RenderResult where
  | email (html : String) : RenderResult
  | doc (d : Document) : RenderResult

/-- Result of a `render` call: resulting page state, emitted effects, and
the produced value or propagated error. -/
structure RenderOut where
  state : PageState
  effects : List Effect
  result : Except JsErr RenderResult

/-- The backslash doubling `json.replace(/\\/g, "\\\\")` of the templateString payload format. -/
def escapeBackslashes (s : String) : String :=
  String.join (s.toList.map (fun c =>
    if c.toNat = 92 then "\\\\" else String.singleton c))

/-- The live-reload client script injected into the head (src/Page.js lines
248-276), parameterised by the live-reload port and the page path. -/
def liveReloadScript (port : Nat) (path : String) : String :=
  "<script>var socket;function createSocket()\x7bsocket=new WebSocket(\"ws://\"+location.hostname+\":" ++
  toString port ++
  "\");socket.addEventListener(\"message\",function(message)\x7bif(message.data===\"" ++
  path ++
  "\")\x7blocation.reload();\x7d\x7d);socket.addEventListener(\"close\",function()\x7bsetTimeout(createSocket,500);\x7d);\x7dfunction heartbeat()\x7bsocket.send(\"" ++
  path ++
  "\");\x7dcreateSocket();setInterval(heartbeat,1000);</script>"

/-- src/Page.js lines 225-237: compute `head`, `html` and `css`.  They are
initialised to empty strings; when a server component exists the SSR module
renders `head`/`html` (`this.ssrModule["default"]` throws when `ssrModule`
is `undefined`) and, outside the dev env, `css` is re-destructured from the
cached `serverComponent` (so in dev, or without a server component, `css`
keeps its initial empty-string value). -/
def ssrStep (ctx : PageCtx) (st : PageState) (locals : JsVal) :
    Except JsErr (String × String × JsVal) :=
  if truthy st.serverComponent then
    match st.ssrModule with
    | none =>
      -- `this.ssrModule["default"]` with `ssrModule` undefined throws
      .error (.typeError "cannot read property default of undefined")
    | some m =>
      let out := ssrRender m locals
      if ctx.config.env ≠ "dev" then
        match st.serverComponent.get "css" with
        | .ok c => .ok (out.head, out.html, c)
        | .error e => .error e
      else .ok (out.head, out.html, .str "")
  else .ok ("", "", .str "")

/-- src/Page.js lines 208-300: the body of `render` once the page is ready
with no pending error: merge the locals, publish them to the ambient payload
slot, run the configured pre-render hook, run `ssrStep`, read `js` off the
client component, serialise the locals to `props`, append the live-reload
script to the head, and either return the bare html (email mode) or the
template record. -/
def renderBody (ctx : PageCtx) (st : PageState) (effs : List Effect)
    (callerLocals : JsVal) (forEmail : Bool) : RenderOut :=
  let locals := mergeRenderLocals callerLocals
  let effs := effs ++ [Effect.payloadSet locals] ++
    (if ctx.config.prerender then [Effect.prerenderCall locals] else [])
  match ssrStep ctx st locals with
  | .error e => { state := st, effects := effs, result := .error e }
  | .ok (head, html, css) =>
    match st.clientComponent.get "js" with
    | .error e => { state := st, effects := effs, result := .error e }
    | .ok js =>
      let json := jsStringify locals
      let props :=
        if ctx.config.payloadFormat = "templateString" then
          "`" ++ escapeBackslashes json ++ "`"
        else json
      let head :=
        match ctx.liveReloadPort with
        | some port => head ++ liveReloadScript port ctx.path
        | none => head
      if forEmail then
        { state := st, effects := effs, result := .ok (.email html) }
      else
        match js.get "code", css.get "code", st.hashes.get "js", st.hashes.get "css" with
        | .ok jsCode, .ok cssCode, .ok jsHash, .ok cssHash =>
          { state := st, effects := effs, result := .ok (.doc {
              head := head
              html := html
              css := cssCode
              js := jsCode
              jsPath := ctx.jsPath
              cssPath := ctx.cssPath
              jsHash := jsHash
              cssHash := cssHash
              name := ctx.name
              props := props }) }
        | .error e, _, _, _ => { state := st, effects := effs, result := .error e }
        | _, .error e, _, _ => { state := st, effects := effs, result := .error e }
        | _, _, .error e, _ => { state := st, effects := effs, result := .error e }
        | _, _, _, .error e => { state := st, effects := effs, result := .error e }

/-- src/Page.js lines 183-300: `render(locals, forEmail = false)`.  A truthy
`locals._rebuild` first runs `build()` (whose script outcome is `buildRun`);
a page that is not ready runs `init(true)` against the artifact `disk`; any
error from those propagates.  Then `renderBody` produces the result. -/
def render (ctx : PageCtx) (disk : DiskFile) (buildRun : Except JsErr DiskFile)
    (st : PageState) (locals : JsVal) (forEmail : Bool) : RenderOut :=
  match locals.get "_rebuild" with
  | .error e => { state := st, effects := [], result := .error e }
  | .ok rb =>
    let afterBuild : StepOut :=
      if truthy rb then build ctx buildRun st
      else { state := st, effects := [], error := none }
    match afterBuild.error with
    | some e => { state := afterBuild.state, effects := afterBuild.effects, result := .error e }
    | none =>
      let afterInit : StepOut :=
        if !afterBuild.state.ready then
          let o := init ctx disk afterBuild.state true
          { state := o.state, effects := afterBuild.effects ++ o.effects, error := o.error }
        else { state := afterBuild.state, effects := afterBuild.effects, error := none }
      match afterInit.error with
      | some e => { state := afterInit.state, effects := afterInit.effects, result := .error e }
      | none => renderBody ctx afterInit.state afterInit.effects locals forEmail

/-- src/engine.js lines 20-24: the default `excludeLocals` option. -/
def defaultExcludeLocals : List String := ["_locals", "settings", "cache"]

/-- src/engine.js lines 71-77: copy the caller locals into `sendLocals`,
skipping every key listed in `excludeLocals`. -/
def stripLocals (exclude : List String) (locals : List (String × JsVal)) :
    List (String × JsVal) :=
  locals.filter (fun kv => !exclude.contains kv.1)

/-- The engine page registry (src/engine.js `pages`): route path to Page.
Pages are identified by a creation counter so that a re-created Page is
observably distinct from the evicted one; `nextId` supplies fresh
identities. -/
structure Registry where
  pages : List (String × Nat)
  nextId : Nat
deriving DecidableEq

def emptyRegistry : Registry := { pages := [], nextId := 0 }

/-- First binding of a path in the page list. -/
def lookupPage : List (String × Nat) → String → Option Nat
  | [], _ => none
  | (p, i) :: rest, path => if p = path then some i else lookupPage rest path

def Registry.lookup (reg : Registry) (path : String) : Option Nat :=
  lookupPage reg.pages path

/-- Outcome of a registry-level render: the updated registry, the page the
call was delegated to, the (stripped) locals it received, and the result
handed to the caller (via return value or callback — both carry the same
success value or error). -/
structure EngineRenderOut (α : Type) where
  registry : Registry
  page : Nat
  sentLocals : List (String × JsVal)
  result : Except JsErr α

/-- src/engine.js lines 70-100: the registry-level
`render(path, locals, callback)`.  `pageRender` gives the behaviour of
`pages[path].render(sendLocals)` for each page identity: strip the excluded
locals, create a Page for an unseen path, delegate, and on failure delete
the registry entry and propagate the error. -/
def engineRender {α : Type} (exclude : List String)
    (pageRender : Nat → List (String × JsVal) → Except JsErr α)
    (reg : Registry) (path : String) (locals : List (String × JsVal)) :
    EngineRenderOut α :=
  let sendLocals := stripLocals exclude locals
  let found := reg.lookup path
  let pid := found.getD reg.nextId
  let reg1 :=
    match found with
    | some _ => reg
    | none => { pages := reg.pages ++ [(path, reg.nextId)], nextId := reg.nextId + 1 }
  match pageRender pid sendLocals with
  | .ok result =>
    { registry := reg1, page := pid, sentLocals := sendLocals, result := .ok result }
  | .error e =>
    { registry := { reg1 with pages := reg1.pages.filter (fun kv => kv.1 ≠ path) }
      page := pid
      sentLocals := sendLocals
      result := .error e }

/-! Concrete fixtures used to evaluate the definitions on the scenarios of
the specification. -/

/-- A production configuration: watch, live reload and the hooks off. -/
def prodConfig : Config :=
  { env := "production", watch := false, liveReload := false,
    payloadFormat := "json", prerender := false }

/-- The same configuration with `env = "dev"`. -/
def devConfig : Config := { prodConfig with env := "dev" }

/-- A concrete page context under the production configuration. -/
def testCtx : PageCtx :=
  { path := "/app/home", name := "home", jsPath := "/assets/home.js",
    cssPath := "/assets/home.css", config := prodConfig,
    liveReloadPort := none, isElectron := false }

/-- The same page context under the dev configuration. -/
def devCtx : PageCtx := { testCtx with config := devConfig }

/-- The artifact exactly as the specification writes it:
`\x7bclient:\x7bcode:"<js>",watchFiles:[]\x7d, server:\x7bcode:"<ssr>",css:\x7bcode:".a\x7b\x7d"\x7d\x7d, hashes:\x7bjs:"h1",css:"h2"\x7d\x7d`. -/
def specArtifact : JsVal := .obj [
  ("client", .obj [("code", .str "<js>"), ("watchFiles", .arr [])]),
  ("server", .obj [("code", .str "<ssr>"), ("css", .obj [("code", .str ".a\x7b\x7d")])]),
  ("hashes", .obj [("js", .str "h1"), ("css", .str "h2")])]

/-- The same artifact with the field names src/Page.js actually reads:
`client.js.code` (line 239/291) and `server.component` (line 120). -/
def codeArtifact : JsVal := .obj [
  ("client", .obj [("js", .obj [("code", .str "<js>")]), ("watchFiles", .arr [])]),
  ("server", .obj [("component", .str "<ssr>"), ("css", .obj [("code", .str ".a\x7b\x7d")])]),
  ("hashes", .obj [("js", .str "h1"), ("css", .str "h2")])]

/-- The caller locals `\x7btitle: "Hi"\x7d` of the concrete scenario. -/
def titleLocals : JsVal := .obj [("title", .str "Hi")]

/-- A ready page as produced by a successful `init` over `codeArtifact`. -/
def readyState : PageState :=
  { ready := true, active := false, idleTimer := none,
    serverComponent := .obj [("component", .str "<ssr>"),
                             ("css", .obj [("code", .str ".a\x7b\x7d")])],
    clientComponent := .obj [("js", .obj [("code", .str "<js>")]),
                             ("watchFiles", .arr [])],
    hashes := .obj [("js", .str "h1"), ("css", .str "h2")],
    ssrModule := some "<ssr>", watcher := none }

/-- The document produced by a dev-mode render of `readyState` with
`titleLocals` (used as the C10 witness instance). -/
def devDoc : Document :=
  { head := "<head <ssr>>"
    html := "<ssr <ssr> \x7b\"title\":\"Hi\"\x7d>"
    css := .undefined
    js := .str "<js>"
    jsPath := "/assets/home.js"
    cssPath := "/assets/home.css"
    jsHash := .str "h1"
    cssHash := .str "h2"
    name := "home"
    props := "\x7b\"title\":\"Hi\"\x7d" }

/-!
Theorems.  Each claim of the specification is settled below; helper lemmas
carry no claim name.
-/

/-- C1 (counterexample): with the artifact shaped exactly as the
specification writes it — `client.code` and `server.code` — `render`
does not return a document at all: `init` passes
`this.serverComponent.component` (which is `undefined`) to
`instantiateSsrModule` and the failure propagates out of `render`.
(Had module instantiation tolerated `undefined`, the render would still
throw at `js.code`, since the client component has no `js` field.) -/
theorem c1_spec_shape_fails :
    (render testCtx (.json specArtifact) (.ok .absent) freshPage titleLocals
        false).result =
      .error (.typeError "instantiateSsrModule: component source is not a string") :=
  rfl

/-- C1 (amended): with the field names the code actually reads —
`client.js.code` and `server.component` — rendering `\x7btitle:"Hi"\x7d` on a
fresh page whose artifact is on disk yields the template record containing
the SSR-rendered head and html, the cached CSS `.a\x7b\x7d`, the hashes `h1` and
`h2` next to the asset URLs, and the only emitted effect is the ambient
payload write: no rebuild is requested. -/
theorem c1_render_scenario :
    (render testCtx (.json codeArtifact) (.ok .absent) freshPage titleLocals
        false).result =
      .ok (.doc
        { head := (ssrRender "<ssr>" (mergeRenderLocals titleLocals)).head
          html := (ssrRender "<ssr>" (mergeRenderLocals titleLocals)).html
          css := .str ".a\x7b\x7d"
          js := .str "<js>"
          jsPath := "/assets/home.js"
          cssPath := "/assets/home.css"
          jsHash := .str "h1"
          cssHash := .str "h2"
          name := "home"
          props := jsStringify (mergeRenderLocals titleLocals) }) ∧
    (render testCtx (.json codeArtifact) (.ok .absent) freshPage titleLocals
        false).effects =
      [.payloadSet (mergeRenderLocals titleLocals)] :=
  ⟨rfl, rfl⟩

/-- C3 (counterexample): a change notification on a ready, inactive,
non-Electron page during whose 100 ms debounce sleep a heartbeat arrives
requests the rebuild with priority `true`, although the page's `active`
flag at the moment the notification arrived was `false`. -/
theorem c3_heartbeat_during_debounce :
    readyState.active = false ∧
    (onChange testCtx readyState (some 7)).2 =
      [.sleepMs 100, .scheduleBuild true] :=
  ⟨rfl, rfl⟩

/-- C3 (amended): a watched-file change always marks the page unready and
requests a rebuild whose priority equals the page's `active` flag at the
moment the request is issued (which, when a heartbeat lands inside the
debounce sleep, can differ from the flag at notification time); when the
page is inactive at notification time and not in Electron the request is
preceded by the 100 ms debounce sleep, and in Electron the delay is
skipped. -/
theorem c3_schedule_priority (ctx : PageCtx) (st : PageState) (hb : Option Nat) :
    (onChange ctx st hb).1.ready = false ∧
    (onChange ctx st hb).2 =
      (if ctx.isElectron = false ∧ st.active = false then [Effect.sleepMs 100]
       else []) ++
      [Effect.scheduleBuild (onChange ctx st hb).1.active] := by
  unfold onChange
  by_cases he : ctx.isElectron <;> by_cases ha : st.active <;>
    cases hb <;> simp [he, ha, heartbeat]

/-- C4 (counterexample): `init` on an unparsable artifact deletes the
artifact file and re-throws, but it does not leave the page unready: a page
that was ready before the call still has `ready = true` afterwards, because
the catch block never touches `ready`. -/
theorem c4_ready_page_stays_ready :
    (init testCtx .corrupt readyState false).error = some .parseError ∧
    (init testCtx .corrupt readyState false).effects = [.deleteArtifact] ∧
    (init testCtx .corrupt readyState false).state.ready = true :=
  ⟨rfl, rfl, rfl⟩

/-- C4 (amended): for every `init` call whose artifact read/parse fails, the
artifact file is deleted and the failure is re-thrown with the page state —
including the `ready` flag — left exactly as it was, so a page that was
unready stays unready (but a previously ready page stays marked ready). -/
theorem c4_corrupt_artifact (ctx : PageCtx) (st : PageState) (p : Bool) :
    init ctx .corrupt st p =
      { state := st, effects := [.deleteArtifact], error := some .parseError } :=
  rfl

/-- C6: a heartbeat at time `n` makes the page active with the single-shot
idle timer pending for `n + idleTimeout`; if no further heartbeat arrives,
the expiry sets `active = false` and clears the handle; a new heartbeat at
`m ≠ n` replaces the pending timer (so the old expiry is a no-op) and
restarts the window at `m + idleTimeout`. -/
theorem c6_heartbeat_idle_timer (st : PageState) (n m : Nat) (hne : m ≠ n) :
    (heartbeat st n).active = true ∧
    (heartbeat st n).idleTimer = some (n + idleTimeout) ∧
    idleTimerFire (heartbeat st n) (n + idleTimeout) =
      { heartbeat st n with active := false, idleTimer := none } ∧
    idleTimerFire (heartbeat (heartbeat st n) m) (n + idleTimeout) =
      heartbeat (heartbeat st n) m ∧
    (heartbeat (heartbeat st n) m).idleTimer = some (m + idleTimeout) := by
  refine ⟨rfl, rfl, ?_, ?_, rfl⟩
  · simp [idleTimerFire, heartbeat]
  · simp [idleTimerFire, heartbeat, hne]

/-- C6 witness at `st = freshPage`, `n = 0`, `m = 1`. -/
theorem c6_heartbeat_idle_timer_witness :
    (1 : Nat) ≠ 0 ∧
    ((heartbeat freshPage 0).active = true ∧
     (heartbeat freshPage 0).idleTimer = some (0 + idleTimeout) ∧
     idleTimerFire (heartbeat freshPage 0) (0 + idleTimeout) =
       { heartbeat freshPage 0 with active := false, idleTimer := none } ∧
     idleTimerFire (heartbeat (heartbeat freshPage 0) 1) (0 + idleTimeout) =
       heartbeat (heartbeat freshPage 0) 1 ∧
     (heartbeat (heartbeat freshPage 0) 1).idleTimer = some (1 + idleTimeout)) :=
  ⟨by decide, c6_heartbeat_idle_timer freshPage 0 1 (by decide)⟩

/-- Looking a key up after a JS property write: the written key now maps to
the new value, every other key is unaffected. -/
theorem lookupField_setField (acc : List (String × JsVal)) (k : String)
    (v : JsVal) (key : String) :
    lookupField (setField acc k v) key =
      if k = key then some v else lookupField acc key := by
  induction acc with
  | nil => by_cases h : k = key <;> simp [setField, lookupField, h]
  | cons kv rest ih =>
    obtain ⟨k1, w⟩ := kv
    by_cases h1 : k1 = k
    · subst h1
      by_cases h2 : k1 = key <;> simp [setField, lookupField, h2]
    · have hsf : setField ((k1, w) :: rest) k v = (k1, w) :: setField rest k v := by
        simp [setField, h1]
      rw [hsf]
      by_cases h2 : k1 = key
      · have h3 : ¬k = key := fun hh => h1 (h2.trans hh.symm)
        simp [lookupField, h2, h3]
      · simp [lookupField, h2, ih]

/-- Spreading fields none of which bind `key` leaves the binding of `key`
unchanged. -/
theorem lookupField_spreadFields_not_mem (add : List (String × JsVal))
    (base : List (String × JsVal)) (key : String)
    (h : key ∉ add.map Prod.fst) :
    lookupField (spreadFields base add) key = lookupField base key := by
  induction add generalizing base with
  | nil => rfl
  | cons kv rest ih =>
    obtain ⟨k, v⟩ := kv
    simp only [List.map_cons, List.mem_cons] at h
    push_neg at h
    rw [show spreadFields base ((k, v) :: rest) =
          spreadFields (setField base k v) rest from rfl,
        ih _ h.2, lookupField_setField]
    exact if_neg (fun hh => h.1 hh.symm)

/-- Spreading fields with pairwise distinct keys binds each spread key to
its spread value, whatever the base held. -/
theorem lookupField_spreadFields_mem (add : List (String × JsVal))
    (base : List (String × JsVal)) (k : String) (v : JsVal)
    (hnd : (add.map Prod.fst).Nodup) (hmem : (k, v) ∈ add) :
    lookupField (spreadFields base add) k = some v := by
  induction add generalizing base with
  | nil => cases hmem
  | cons kv rest ih =>
    obtain ⟨k1, v1⟩ := kv
    rw [show spreadFields base ((k1, v1) :: rest) =
          spreadFields (setField base k1 v1) rest from rfl]
    simp only [List.map_cons, List.nodup_cons] at hnd
    rcases List.mem_cons.mp hmem with heq | hmem2
    · cases heq
      rw [lookupField_spreadFields_not_mem rest _ k hnd.1, lookupField_setField]
      simp
    · exact ih (setField base k1 v1) hnd.2 hmem2

/-- C2 (counterexample): a caller-supplied local named `__headOnce` does
override the engine-internal one-shot function, because the caller locals
are spread after it in the render-context object literal. -/
theorem c2_headOnce_overridden :
    (mergeRenderLocals (.obj [("__headOnce", .str "boom")])).get "__headOnce" =
      .ok (.str "boom") ∧
    JsVal.str "boom" ≠ headOnceVal :=
  ⟨rfl, fun h => JsVal.noConfusion h⟩

/-- C2 (amended): the render context spreads the caller locals over the
engine-internal fields, so every caller-supplied local (keys pairwise
distinct) keeps its own value — including one named `__headOnce` — and the
engine-internal `__headOnce` survives only when the caller does not supply
that key. -/
theorem c2_caller_locals_override (fs : List (String × JsVal))
    (hnd : (fs.map Prod.fst).Nodup) :
    (∀ k v, (k, v) ∈ fs → (mergeRenderLocals (.obj fs)).get k = .ok v) ∧
    ("__headOnce" ∉ fs.map Prod.fst →
      (mergeRenderLocals (.obj fs)).get "__headOnce" = .ok headOnceVal) := by
  constructor
  · intro k v hmem
    simp [mergeRenderLocals, JsVal.get,
      lookupField_spreadFields_mem fs _ k v hnd hmem]
  · intro hno
    simp [mergeRenderLocals, JsVal.get,
      lookupField_spreadFields_not_mem fs _ _ hno, lookupField]

/-- C2 witness at the caller locals `\x7btitle:"Hi"\x7d`. -/
theorem c2_caller_locals_override_witness :
    (([("title", JsVal.str "Hi")].map Prod.fst).Nodup) ∧
    ((∀ k v, (k, v) ∈ [("title", JsVal.str "Hi")] →
        (mergeRenderLocals (.obj [("title", JsVal.str "Hi")])).get k = .ok v) ∧
     ("__headOnce" ∉ [("title", JsVal.str "Hi")].map Prod.fst →
        (mergeRenderLocals (.obj [("title", JsVal.str "Hi")])).get "__headOnce" =
          .ok headOnceVal)) :=
  ⟨by simp, c2_caller_locals_override _ (by simp)⟩

/-- C9: when `init` parses the artifact, stores the destructured fields on
the page, and only then fails to instantiate the SSR module, the error is
re-thrown with the artifact file deleted and with `serverComponent`,
`clientComponent` and `hashes` already overwritten by the newly-read values
— the pre-call values are not restored. -/
theorem c9_init_not_atomic (ctx : PageCtx) (st : PageState) (p : Bool)
    (v client server hashes comp : JsVal) (e : JsErr)
    (hc : v.get "client" = .ok client) (hs : v.get "server" = .ok server)
    (hh : v.get "hashes" = .ok hashes)
    (htr : truthy server = true)
    (hcomp : server.get "component" = .ok comp)
    (hinst : instantiateSsrModule comp ctx.path = .error e) :
    init ctx (.json v) st p =
      { state := { st with
          serverComponent := server
          clientComponent := client
          hashes := if truthy hashes then hashes else .obj [] }
        effects := [.deleteArtifact]
        error := some e } := by
  simp [init, hc, hs, hh, htr, hcomp, hinst]

/-- C9 witness: the spec-shaped artifact over a previously ready page — the
component source read from `server.component` is `undefined`, module
instantiation fails, and the page keeps the newly-read fields. -/
theorem c9_init_not_atomic_witness :
    specArtifact.get "client" =
      .ok (.obj [("code", .str "<js>"), ("watchFiles", .arr [])]) ∧
    specArtifact.get "server" =
      .ok (.obj [("code", .str "<ssr>"), ("css", .obj [("code", .str ".a\x7b\x7d")])]) ∧
    specArtifact.get "hashes" =
      .ok (.obj [("js", .str "h1"), ("css", .str "h2")]) ∧
    truthy (.obj [("code", .str "<ssr>"), ("css", .obj [("code", .str ".a\x7b\x7d")])]) = true ∧
    (JsVal.obj [("code", .str "<ssr>"),
                ("css", .obj [("code", .str ".a\x7b\x7d")])]).get "component" = .ok .undefined ∧
    instantiateSsrModule .undefined testCtx.path =
      .error (.typeError "instantiateSsrModule: component source is not a string") ∧
    init testCtx (.json specArtifact) readyState false =
      { state := { readyState with
          serverComponent := .obj [("code", .str "<ssr>"),
                                   ("css", .obj [("code", .str ".a\x7b\x7d")])]
          clientComponent := .obj [("code", .str "<js>"), ("watchFiles", .arr [])]
          hashes := if truthy (.obj [("js", .str "h1"), ("css", .str "h2")])
                    then .obj [("js", .str "h1"), ("css", .str "h2")] else .obj [] }
        effects := [.deleteArtifact]
        error := some (.typeError "instantiateSsrModule: component source is not a string") } :=
  ⟨rfl, rfl, rfl, rfl, rfl, rfl,
    c9_init_not_atomic testCtx readyState false specArtifact _ _ _ _ _
      rfl rfl rfl rfl rfl rfl⟩

/-- The render body never mutates the page state: every branch returns the
state it was given. -/
theorem renderBody_state (ctx : PageCtx) (st : PageState) (effs : List Effect)
    (cl : JsVal) (fe : Bool) : (renderBody ctx st effs cl fe).state = st := by
  simp only [renderBody]
  repeat' split
  all_goals rfl

/-- Under the dev env, or without a server component, the SSR step either
fails or leaves `css` as the initial empty string. -/
theorem ssrStep_dev (ctx : PageCtx) (st : PageState) (locals : JsVal)
    (hdev : ctx.config.env = "dev" ∨ truthy st.serverComponent = false) :
    (∃ e, ssrStep ctx st locals = .error e) ∨
    (∃ hd hm, ssrStep ctx st locals = .ok (hd, hm, .str "")) := by
  unfold ssrStep
  by_cases hsv : truthy st.serverComponent
  · rcases hdev with hdev | hdev
    · simp only [hsv, if_true]
      cases hmod : st.ssrModule with
      | none => exact .inl ⟨_, rfl⟩
      | some m =>
        exact .inr ⟨(ssrRender m locals).head, (ssrRender m locals).html,
          by simp [hdev]⟩
    · exact absurd hsv (by simp [hdev])
  · exact .inr ⟨"", "", by simp [hsv]⟩

/-- Whenever the render body returns a document under the dev env or with
no server component, the `css` handed to the template is `undefined` (it is
`css.code` where `css` is the initial empty string). -/
theorem renderBody_dev_css (ctx : PageCtx) (st : PageState)
    (effs : List Effect) (cl : JsVal) (d : Document)
    (hdev : ctx.config.env = "dev" ∨ truthy st.serverComponent = false)
    (hres : (renderBody ctx st effs cl false).result = .ok (.doc d)) :
    d.css = .undefined := by
  rcases ssrStep_dev ctx st (mergeRenderLocals cl) hdev with ⟨e, herr⟩ | ⟨hd, hm, hok⟩
  · simp only [renderBody, herr] at hres
    exact Except.noConfusion hres
  · have hcss : (JsVal.str "").get "code" = Except.ok JsVal.undefined := rfl
    cases hjs : st.clientComponent.get "js" with
    | error e =>
      simp only [renderBody, hok, hjs] at hres
      exact Except.noConfusion hres
    | ok js =>
      cases hjc : js.get "code" with
      | error e =>
        simp only [renderBody, hok, hjs, hjc, hcss, Bool.false_eq_true,
          if_false] at hres
        exact Except.noConfusion hres
      | ok jsCode =>
        cases hh1 : st.hashes.get "js" with
        | error e =>
          simp only [renderBody, hok, hjs, hjc, hcss, hh1, Bool.false_eq_true,
            if_false] at hres
          exact Except.noConfusion hres
        | ok jsHash =>
          cases hh2 : st.hashes.get "css" with
          | error e =>
            simp only [renderBody, hok, hjs, hjc, hcss, hh1, hh2,
              Bool.false_eq_true, if_false] at hres
            exact Except.noConfusion hres
          | ok cssHash =>
            simp only [renderBody, hok, hjs, hjc, hcss, hh1, hh2,
              Bool.false_eq_true, if_false] at hres
            injection hres with h1
            injection h1 with h2
            subst h2
            rfl

/-- C10: for every render of a ready page (no forced rebuild) in which the
configured env is dev or the page has no server component, a produced
document carries `css = undefined` — the internal `css` variable kept its
initial empty-string value and the template reads `css.code` off a string. -/
theorem c10_dev_css_undefined (ctx : PageCtx) (disk : DiskFile)
    (br : Except JsErr DiskFile) (st : PageState) (locals rb : JsVal)
    (d : Document)
    (hready : st.ready = true)
    (hrb : locals.get "_rebuild" = .ok rb) (hfalsy : truthy rb = false)
    (hdev : ctx.config.env = "dev" ∨ truthy st.serverComponent = false)
    (hres : (render ctx disk br st locals false).result = .ok (.doc d)) :
    d.css = .undefined := by
  simp only [render, hrb, hfalsy, Bool.false_eq_true, if_false, hready,
    Bool.not_true] at hres
  exact renderBody_dev_css ctx st _ locals d hdev hres

/-- C10 witness: the dev-mode render of the ready page produces `devDoc`,
whose `css` is `undefined`. -/
theorem c10_dev_css_undefined_witness :
    readyState.ready = true ∧
    titleLocals.get "_rebuild" = .ok .undefined ∧
    truthy .undefined = false ∧
    (devCtx.config.env = "dev" ∨ truthy readyState.serverComponent = false) ∧
    (render devCtx .absent (.ok .absent) readyState titleLocals false).result =
      .ok (.doc devDoc) ∧
    devDoc.css = .undefined :=
  ⟨rfl, rfl, rfl, Or.inl rfl, rfl,
    c10_dev_css_undefined devCtx .absent (.ok .absent) readyState titleLocals
      .undefined devDoc rfl rfl rfl (Or.inl rfl) rfl⟩

/-- C8: two consecutive renders of a ready page with the same locals, no
file change and no forced rebuild are idempotent: the first call leaves the
page state unchanged, the second call returns the very same outcome, and in
particular both documents carry identical `html`, `css` and `js`
payloads (the embedded SSR module is a deterministic function). -/
theorem c8_render_idempotent (ctx : PageCtx) (disk : DiskFile)
    (br : Except JsErr DiskFile) (st : PageState) (locals rb : JsVal)
    (hready : st.ready = true)
    (hrb : locals.get "_rebuild" = .ok rb) (hfalsy : truthy rb = false) :
    (render ctx disk br st locals false).state = st ∧
    render ctx disk br (render ctx disk br st locals false).state locals false =
      render ctx disk br st locals false ∧
    (∀ d1 d2,
      (render ctx disk br st locals false).result = .ok (.doc d1) →
      (render ctx disk br (render ctx disk br st locals false).state locals
          false).result = .ok (.doc d2) →
      d1.html = d2.html ∧ d1.css = d2.css ∧ d1.js = d2.js) := by
  have hstate : (render ctx disk br st locals false).state = st := by
    simp only [render, hrb, hfalsy, Bool.false_eq_true, if_false, hready,
      Bool.not_true]
    exact renderBody_state ctx st _ locals false
  refine ⟨hstate, by rw [hstate], ?_⟩
  intro d1 d2 h1 h2
  rw [hstate] at h2
  have heq : Except.ok (RenderResult.doc d1) = .ok (.doc d2) := h1.symm.trans h2
  injection heq with h3
  injection h3 with h4
  subst h4
  exact ⟨rfl, rfl, rfl⟩

/-- C8 witness: the ready page rendered twice with `\x7btitle:"Hi"\x7d`. -/
theorem c8_render_idempotent_witness :
    readyState.ready = true ∧
    titleLocals.get "_rebuild" = .ok .undefined ∧
    truthy .undefined = false ∧
    ((render testCtx .absent (.ok .absent) readyState titleLocals false).state =
        readyState ∧
     render testCtx .absent (.ok .absent)
         (render testCtx .absent (.ok .absent) readyState titleLocals false).state
         titleLocals false =
       render testCtx .absent (.ok .absent) readyState titleLocals false ∧
     (∀ d1 d2,
       (render testCtx .absent (.ok .absent) readyState titleLocals
           false).result = .ok (.doc d1) →
       (render testCtx .absent (.ok .absent)
           (render testCtx .absent (.ok .absent) readyState titleLocals
               false).state titleLocals false).result = .ok (.doc d2) →
       d1.html = d2.html ∧ d1.css = d2.css ∧ d1.js = d2.js)) :=
  ⟨rfl, rfl, rfl,
    c8_render_idempotent testCtx .absent (.ok .absent) readyState titleLocals
      .undefined rfl rfl rfl⟩

/-- Appending a fresh binding makes an unseen path found. -/
theorem lookupPage_append_self (l : List (String × Nat)) (path : String)
    (i : Nat) (h : lookupPage l path = none) :
    lookupPage (l ++ [(path, i)]) path = some i := by
  induction l with
  | nil => simp [lookupPage]
  | cons kv rest ih =>
    obtain ⟨p, j⟩ := kv
    by_cases hp : p = path
    · simp [lookupPage, hp] at h
    · simp [lookupPage, hp] at h ⊢
      exact ih h

/-- Deleting a path from the page list makes it unfindable. -/
theorem lookupPage_filter_ne (l : List (String × Nat)) (path : String) :
    lookupPage (l.filter (fun kv => kv.1 ≠ path)) path = none := by
  induction l with
  | nil => rfl
  | cons kv rest ih =>
    obtain ⟨p, j⟩ := kv
    rw [List.filter_cons]
    by_cases hp : p = path
    · rw [if_neg (by simp [hp])]
      exact ih
    · rw [if_pos (by simp [hp]), lookupPage, if_neg hp]
      exact ih

/-- A found binding is a member of the page list. -/
theorem lookupPage_mem (l : List (String × Nat)) (path : String) (i : Nat)
    (h : lookupPage l path = some i) : (path, i) ∈ l := by
  induction l with
  | nil => cases h
  | cons kv rest ih =>
    obtain ⟨p, j⟩ := kv
    by_cases hp : p = path
    · subst hp
      simp [lookupPage] at h
      subst h
      exact List.mem_cons_self _ _
    · simp [lookupPage, hp] at h
      exact List.mem_cons_of_mem _ (ih h)

/-- The locals delegated by the registry render are always the stripped
ones. -/
theorem engineRender_sentLocals {α : Type} (exclude : List String)
    (pageRender : Nat → List (String × JsVal) → Except JsErr α)
    (reg : Registry) (path : String) (locals : List (String × JsVal)) :
    (engineRender exclude pageRender reg path locals).sentLocals =
      stripLocals exclude locals := by
  simp only [engineRender]
  repeat' split
  all_goals rfl

/-- The page a registry render delegates to: the registered one, or the
freshly created one for an unseen path. -/
theorem engineRender_page {α : Type} (exclude : List String)
    (pageRender : Nat → List (String × JsVal) → Except JsErr α)
    (reg : Registry) (path : String) (locals : List (String × JsVal)) :
    (engineRender exclude pageRender reg path locals).page =
      (reg.lookup path).getD reg.nextId := by
  simp only [engineRender]
  repeat' split
  all_goals rfl

/-- Registry render of a seen path whose page render succeeds. -/
theorem engineRender_found_ok {α : Type} (exclude : List String)
    (pageRender : Nat → List (String × JsVal) → Except JsErr α)
    (reg : Registry) (path : String) (locals : List (String × JsVal))
    (pid : Nat) (r : α)
    (hfound : reg.lookup path = some pid)
    (hok : pageRender pid (stripLocals exclude locals) = .ok r) :
    engineRender exclude pageRender reg path locals =
      { registry := reg, page := pid,
        sentLocals := stripLocals exclude locals, result := .ok r } := by
  simp [engineRender, hfound, hok]

/-- Registry render of a seen path whose page render fails: the page is
deleted from the registry. -/
theorem engineRender_found_err {α : Type} (exclude : List String)
    (pageRender : Nat → List (String × JsVal) → Except JsErr α)
    (reg : Registry) (path : String) (locals : List (String × JsVal))
    (pid : Nat) (e : JsErr)
    (hfound : reg.lookup path = some pid)
    (herr : pageRender pid (stripLocals exclude locals) = .error e) :
    engineRender exclude pageRender reg path locals =
      { registry := { reg with pages := reg.pages.filter (fun kv => kv.1 ≠ path) },
        page := pid, sentLocals := stripLocals exclude locals,
        result := .error e } := by
  simp [engineRender, hfound, herr]

/-- Registry render of an unseen path whose page render succeeds: a fresh
page is created and retained. -/
theorem engineRender_new_ok {α : Type} (exclude : List String)
    (pageRender : Nat → List (String × JsVal) → Except JsErr α)
    (reg : Registry) (path : String) (locals : List (String × JsVal)) (r : α)
    (hfound : reg.lookup path = none)
    (hok : pageRender reg.nextId (stripLocals exclude locals) = .ok r) :
    engineRender exclude pageRender reg path locals =
      { registry := { pages := reg.pages ++ [(path, reg.nextId)],
                      nextId := reg.nextId + 1 },
        page := reg.nextId, sentLocals := stripLocals exclude locals,
        result := .ok r } := by
  simp [engineRender, hfound, hok]

/-- Registry render of an unseen path whose page render fails: the fresh
page is created and then deleted again. -/
theorem engineRender_new_err {α : Type} (exclude : List String)
    (pageRender : Nat → List (String × JsVal) → Except JsErr α)
    (reg : Registry) (path : String) (locals : List (String × JsVal)) (e : JsErr)
    (hfound : reg.lookup path = none)
    (herr : pageRender reg.nextId (stripLocals exclude locals) = .error e) :
    engineRender exclude pageRender reg path locals =
      { registry := { pages := (reg.pages ++
                        [(path, reg.nextId)]).filter (fun kv => kv.1 ≠ path),
                      nextId := reg.nextId + 1 },
        page := reg.nextId, sentLocals := stripLocals exclude locals,
        result := .error e } := by
  simp [engineRender, hfound, herr]

/-- C5: the registry-level render strips the excluded caller locals before
delegating (excluded keys never reach the page, all other bindings do),
creates a Page for an unseen path, returns the page's success value, and on
a page render failure propagates the error with the page evicted from the
registry, so that any subsequent render of the same path constructs a
brand-new Page (a strictly fresher identity than the evicted one). -/
theorem c5_registry_render {α : Type} (exclude : List String)
    (pageRender : Nat → List (String × JsVal) → Except JsErr α)
    (reg : Registry) (path : String) (locals : List (String × JsVal))
    (hwf : ∀ kv ∈ reg.pages, kv.2 < reg.nextId) :
    (∀ kv ∈ (engineRender exclude pageRender reg path locals).sentLocals,
       kv.1 ∉ exclude) ∧
    (∀ kv ∈ locals, kv.1 ∉ exclude →
       kv ∈ (engineRender exclude pageRender reg path locals).sentLocals) ∧
    (reg.lookup path = none →
       (engineRender exclude pageRender reg path locals).page = reg.nextId) ∧
    (∀ r : α,
       pageRender (engineRender exclude pageRender reg path locals).page
           (stripLocals exclude locals) = .ok r →
       (engineRender exclude pageRender reg path locals).result = .ok r ∧
       (engineRender exclude pageRender reg path locals).registry.lookup path =
         some (engineRender exclude pageRender reg path locals).page) ∧
    (∀ e : JsErr,
       pageRender (engineRender exclude pageRender reg path locals).page
           (stripLocals exclude locals) = .error e →
       (engineRender exclude pageRender reg path locals).result = .error e ∧
       (engineRender exclude pageRender reg path locals).registry.lookup path =
         none ∧
       (∀ (pr2 : Nat → List (String × JsVal) → Except JsErr α)
          (locals2 : List (String × JsVal)),
          (engineRender exclude pr2
              (engineRender exclude pageRender reg path locals).registry path
              locals2).page ≠
            (engineRender exclude pageRender reg path locals).page)) := by
  refine ⟨?_, ?_, ?_, ?_, ?_⟩
  · intro kv hkv
    rw [engineRender_sentLocals] at hkv
    simp [stripLocals, List.mem_filter] at hkv
    exact hkv.2
  · intro kv hkv hne
    rw [engineRender_sentLocals]
    simp [stripLocals, List.mem_filter, hkv, hne]
  · intro hnone
    rw [engineRender_page, hnone]
    rfl
  · intro r hok
    rw [engineRender_page] at hok
    cases hfound : reg.lookup path with
    | some pid =>
      rw [hfound, Option.getD_some] at hok
      rw [engineRender_found_ok exclude pageRender reg path locals pid r hfound hok]
      exact ⟨rfl, hfound⟩
    | none =>
      rw [hfound, Option.getD_none] at hok
      rw [engineRender_new_ok exclude pageRender reg path locals r hfound hok]
      exact ⟨rfl, lookupPage_append_self _ _ _ hfound⟩
  · intro e herr
    rw [engineRender_page] at herr
    cases hfound : reg.lookup path with
    | some pid =>
      rw [hfound, Option.getD_some] at herr
      rw [engineRender_found_err exclude pageRender reg path locals pid e hfound herr]
      refine ⟨rfl, lookupPage_filter_ne _ _, ?_⟩
      intro pr2 locals2
      rw [engineRender_page]
      have hl : Registry.lookup
          { reg with pages := reg.pages.filter (fun kv => kv.1 ≠ path) } path =
          none := lookupPage_filter_ne _ _
      rw [hl, Option.getD_none]
      have hmem := lookupPage_mem reg.pages path pid hfound
      have hlt := hwf _ hmem
      simp only []
      omega
    | none =>
      rw [hfound, Option.getD_none] at herr
      rw [engineRender_new_err exclude pageRender reg path locals e hfound herr]
      refine ⟨rfl, lookupPage_filter_ne _ _, ?_⟩
      intro pr2 locals2
      rw [engineRender_page]
      have hl : Registry.lookup
          { pages := (reg.pages ++
              [(path, reg.nextId)]).filter (fun kv => kv.1 ≠ path),
            nextId := reg.nextId + 1 } path = none := lookupPage_filter_ne _ _
      rw [hl, Option.getD_none]
      simp only []
      omega

/-- C5 witness: an empty registry, the default exclusion set, and a page
render that succeeds with a fixed document. -/
theorem c5_registry_render_witness :
    (∀ kv ∈ emptyRegistry.pages, kv.2 < emptyRegistry.nextId) ∧
    ((∀ kv ∈ (engineRender defaultExcludeLocals
          (fun _ _ => (.ok "doc" : Except JsErr String)) emptyRegistry "/app/home"
          [("settings", .null), ("title", .str "Hi")]).sentLocals,
        kv.1 ∉ defaultExcludeLocals) ∧
     (∀ kv ∈ [(("settings" : String), JsVal.null), ("title", .str "Hi")],
        kv.1 ∉ defaultExcludeLocals →
        kv ∈ (engineRender defaultExcludeLocals
          (fun _ _ => (.ok "doc" : Except JsErr String)) emptyRegistry "/app/home"
          [("settings", .null), ("title", .str "Hi")]).sentLocals) ∧
     (emptyRegistry.lookup "/app/home" = none →
        (engineRender defaultExcludeLocals
          (fun _ _ => (.ok "doc" : Except JsErr String)) emptyRegistry "/app/home"
          [("settings", .null), ("title", .str "Hi")]).page =
          emptyRegistry.nextId) ∧
     (∀ r : String,
        (fun _ _ => (.ok "doc" : Except JsErr String))
            (engineRender defaultExcludeLocals
              (fun _ _ => (.ok "doc" : Except JsErr String)) emptyRegistry
              "/app/home" [("settings", .null), ("title", .str "Hi")]).page
            (stripLocals defaultExcludeLocals
              [("settings", .null), ("title", .str "Hi")]) = .ok r →
        (engineRender defaultExcludeLocals
          (fun _ _ => (.ok "doc" : Except JsErr String)) emptyRegistry "/app/home"
          [("settings", .null), ("title", .str "Hi")]).result = .ok r ∧
        (engineRender defaultExcludeLocals
          (fun _ _ => (.ok "doc" : Except JsErr String)) emptyRegistry "/app/home"
          [("settings", .null), ("title", .str "Hi")]).registry.lookup
            "/app/home" =
          some (engineRender defaultExcludeLocals
            (fun _ _ => (.ok "doc" : Except JsErr String)) emptyRegistry
            "/app/home" [("settings", .null), ("title", .str "Hi")]).page) ∧
     (∀ e : JsErr,
        (fun _ _ => (.ok "doc" : Except JsErr String))
            (engineRender defaultExcludeLocals
              (fun _ _ => (.ok "doc" : Except JsErr String)) emptyRegistry
              "/app/home" [("settings", .null), ("title", .str "Hi")]).page
            (stripLocals defaultExcludeLocals
              [("settings", .null), ("title", .str "Hi")]) = .error e →
        (engineRender defaultExcludeLocals
          (fun _ _ => (.ok "doc" : Except JsErr String)) emptyRegistry "/app/home"
          [("settings", .null), ("title", .str "Hi")]).result = .error e ∧
        (engineRender defaultExcludeLocals
          (fun _ _ => (.ok "doc" : Except JsErr String)) emptyRegistry "/app/home"
          [("settings", .null), ("title", .str "Hi")]).registry.lookup
            "/app/home" = none ∧
        (∀ (pr2 : Nat → List (String × JsVal) → Except JsErr String)
           (locals2 : List (String × JsVal)),
           (engineRender defaultExcludeLocals pr2
               (engineRender defaultExcludeLocals
                 (fun _ _ => (.ok "doc" : Except JsErr String)) emptyRegistry
                 "/app/home"
                 [("settings", .null), ("title", .str "Hi")]).registry
               "/app/home" locals2).page ≠
             (engineRender defaultExcludeLocals
               (fun _ _ => (.ok "doc" : Except JsErr String)) emptyRegistry
               "/app/home"
               [("settings", .null), ("title", .str "Hi")]).page))) :=
  ⟨by simp [emptyRegistry],
    c5_registry_render defaultExcludeLocals
      (fun _ _ => (.ok "doc" : Except JsErr String)) emptyRegistry "/app/home"
      [("settings", .null), ("title", .str "Hi")]
      (by simp [emptyRegistry])⟩

/-- C7: `init(priority)` when the artifact file does not exist only
delegates `scheduler.build(this, priority)` and returns with the page state
— `ready`, `serverComponent`, `clientComponent`, `hashes`, `ssrModule` and
the watcher — unchanged. -/
theorem c7_absent_artifact (ctx : PageCtx) (st : PageState) (p : Bool) :
    init ctx .absent st p =
      { state := st, effects := [.schedulerBuild p], error := none } :=
  rfl

end SVE
